import Mathlib

/-!
Verification development for the CivicSentinel server (src/server.js, v3.0,
and the earlier v2.0 source in src/unnamed/part_000).

The development shallowly embeds the claim-verification pipeline of the
`/api/search` endpoint: citation extraction from the search tool's result
blocks, normalization of the model's free-text answer, cross-referencing of
candidate claims against citations, the two-stage live URL probe, and the
assembly of the response (items, rejected diagnostics, stats).

Modelling conventions, stated once:
  * JavaScript strings are Lean `String`s; a missing (`undefined`) string
    field and the empty string are identified, which is faithful because the
    source only ever tests these fields for truthiness (`it.title || ''`),
    and `undefined` and `''` are both falsy.
  * `JSON.parse` applied to the extracted array substring is an oracle
    parameter `parse : String → Option (List RawItem)`; `none` models the
    thrown exception caught by the surrounding try/catch.
  * Network effects are oracles: the live probe inside the cross-reference
    loop is a fixed assignment `probe : String → Bool` of outcomes to URLs
    (the loop awaits each probe serially, so a pure function of the URL is
    an exact model of one request's run); the two `fetch` stages inside
    `verifyUrl` are modelled by their observable outcomes (`FetchOutcome`).
  * `Date.now()` is a request-scoped parameter `now : Nat` (the source reads
    it once per generated id; all ids in one response use the same-millisecond
    value in the runs modelled here).
  * The WHATWG `new URL(u)` constructor is modelled by `parseUrl`, restricted
    to absolute http(s) URLs written with a lowercase scheme, no userinfo and
    no backslashes; everything else is treated as unparsable (throwing), which
    matches the constructor on every input used in this development and on the
    inputs the pipeline cares about (claim URLs are first filtered by
    `startsWith('http')`).
-/

namespace CivicSentinel

/-! ## Character-list string utilities (JS string primitives) -/

/-- JS `s.startsWith(p)`. -/
def jsStartsWith (s p : String) : Bool :=
  p.data.isPrefixOf s.data

/-- JS `s.includes(p)`: does `p` occur as a contiguous substring of `s`? -/
def hasSub (pat : List Char) : List Char → Bool
  | [] => pat.isEmpty
  | c :: rest => pat.isPrefixOf (c :: rest) || hasSub pat rest

/-- JS `s.replace(pat, '')` with a string pattern: removes the FIRST
occurrence of `pat` only (this is the semantics of `String.prototype.replace`
with a non-global string argument, as used in `extractDomain`). -/
def stripFirst (pat : List Char) : List Char → List Char
  | [] => []
  | c :: rest =>
    if pat.isPrefixOf (c :: rest) then (c :: rest).drop pat.length
    else c :: stripFirst pat rest

/-- JS `text.replace(/```json|```/g, '')`: the global regex scan removes
`"```json"` where it matches, otherwise `"```"`, resuming after each match. -/
def stripFences : List Char → List Char
  | '`' :: '`' :: '`' :: 'j' :: 's' :: 'o' :: 'n' :: rest => stripFences rest
  | '`' :: '`' :: '`' :: rest => stripFences rest
  | c :: rest => c :: stripFences rest
  | [] => []

/-- JS `s.trim()` (ASCII whitespace suffices for the texts modelled here). -/
def jsTrim (cs : List Char) : List Char :=
  ((cs.dropWhile Char.isWhitespace).reverse.dropWhile Char.isWhitespace).reverse

/-- JS `parts.join(sep)`. -/
def strJoin (sep : String) : List String → String
  | [] => ""
  | [s] => s
  | s :: rest => s ++ sep ++ strJoin sep rest

/-- Index of the first occurrence of `c`. -/
def firstIdxOf (c : Char) : List Char → Option Nat
  | [] => none
  | x :: rest => if x = c then some 0 else (firstIdxOf c rest).map (· + 1)

/-- Index of the last occurrence of `c`. -/
def lastIdxOf (c : Char) (cs : List Char) : Option Nat :=
  (firstIdxOf c cs.reverse).map (fun k => cs.length - 1 - k)

/-- JS `cleaned.match(/\[[\s\S]*\]/)`: the leftmost-starting, greedy match
runs from the first `'['` to the last `']'`, provided the latter lies after
the former; otherwise there is no match. -/
def bracketMatch (s : String) : Option String :=
  match firstIdxOf '[' s.data, lastIdxOf ']' s.data with
  | some i, some j => if i < j then some ⟨(s.data.drop i).take (j - i + 1)⟩ else none
  | some _, none => none
  | none, _ => none

/-- JS `x || d` on strings: `d` when `x` is falsy (empty/missing), else `x`. -/
def jsOr (s d : String) : String := if s = "" then d else s

/-! ## URL model -/

/-- The two components of a parsed URL the pipeline reads
(`new URL(u).hostname`, `new URL(u).pathname`). -/
structure UrlParts where
  hostname : String
  pathname : String
deriving DecidableEq

/-- ASCII-lowercase a character list (WHATWG hosts are ASCII-lowercased). -/
def lowerStr (cs : List Char) : List Char := cs.map Char.toLower

/-- Strip the scheme marker, or fail: `parseUrl` accepts absolute http(s)
URLs only (see the module doc comment). -/
def schemeRest (cs : List Char) : Option (List Char) :=
  if "http://".data.isPrefixOf cs then some (cs.drop 7)
  else if "https://".data.isPrefixOf cs then some (cs.drop 8)
  else none

/-- The host[:port] segment runs to the first `/`, `?` or `#`; the port is
dropped from `hostname`. -/
def hostOf (rest : List Char) : List Char :=
  (rest.takeWhile fun c => !(c == '/') && !(c == '?') && !(c == '#')).takeWhile
    fun c => !(c == ':')

/-- `pathname`: from the first `/` up to the first `?` or `#`; `"/"` when the
URL has no path. -/
def pathOf (rest : List Char) : List Char :=
  let after := rest.dropWhile fun c => !(c == '/') && !(c == '?') && !(c == '#')
  let p := after.takeWhile fun c => !(c == '?') && !(c == '#')
  if p.head? = some '/' then p else ['/']

/-- A host the model accepts: non-empty, no userinfo, no spaces, no
backslashes (the constructor throws on an empty host; the other characters
are outside this model's scope and never arise in the sources' inputs). -/
def hostValid (host : List Char) : Bool :=
  !host.isEmpty && !(host.any fun c => c == '@' || c == ' ' || c == '\\')

/-- Model of `new URL(url)` restricted as described in the module doc
comment: `some` on success (hostname lowercased, query/fragment dropped from
the pathname), `none` where the constructor throws. -/
def parseUrl (url : String) : Option UrlParts :=
  match schemeRest url.data with
  | none => none
  | some rest =>
    let host := hostOf rest
    if hostValid host then
      some { hostname := ⟨lowerStr host⟩, pathname := ⟨pathOf rest⟩ }
    else none

/-- src/server.js:219-222 `extractDomain`: the hostname with the first
occurrence of `"www."` removed, or the `'Unknown'` sentinel when `new URL`
throws. -/
def extractDomain (url : String) : String :=
  match parseUrl url with
  | some u => ⟨stripFirst "www.".data u.hostname.data⟩
  | none => "Unknown"

/-! ## Data model -/

/-- A Citation: one `web_search_result` item as recorded by
`extractCitations` (src/server.js:224-242). -/
structure Citation where
  title : String
  url : String
  snippet : String
  source : String
  publishedDate : String
deriving DecidableEq

/-- One element of the JSON array the model emitted, as consumed by the
cross-reference loop (the `it` of src/server.js:392). Fields the source
reads; a missing field is the empty string (see the module doc comment). -/
structure RawItem where
  title : String
  summary : String
  source : String
  url : String
  timestamp : String
  category : String
  severity : String
  location : String
deriving DecidableEq

/-- A Claim as built at src/server.js:393-405 and then classified. -/
structure Claim where
  id : String
  title : String
  summary : String
  source : String
  url : String
  timestamp : String
  category : String
  severity : String
  location : String
  verified : Bool
  verificationNote : String
deriving DecidableEq

/-- The `stats` object of the response (src/server.js:454). -/
structure SearchStats where
  totalFound : Nat
  verified : Nat
  rejected : Nat
deriving DecidableEq

/-- The response contract of `/api/search`. `rejected` models the
`rejectedItems` array: the source keeps it out of `items` and renders each
entry into the `rawResponse` transcript (src/server.js:443-448); the
transcript's free text itself is not modelled, the list of rejected claims
is. -/
structure SearchResponse where
  items : List Claim
  verifiedSources : List Citation
  rejected : List Claim
  stats : SearchStats
deriving DecidableEq

/-- A nested item of a `web_search_tool_result` block
(`{type: web_search_result, title, url, page_snippet | encrypted_content,
page_age}`). `encryptedContent` is kept as a string tested for truthiness,
exactly as the source tests it. -/
structure WebResult where
  title : String
  url : String
  pageSnippet : String
  encryptedContent : String
  pageAge : String
deriving DecidableEq

/-- An entry of a tool-result block's `content` array: a search result or
anything else (skipped by the extractor). -/
inductive SearchResultItem where
  | webSearchResult (r : WebResult)
  | otherItem
deriving DecidableEq

/-- A content block of the upstream response: a text block, a
`web_search_tool_result` block with its content array, or any other block
(including a tool-result block with a falsy `content`, which the extractor
skips). -/
inductive ContentBlock where
  | text (t : String)
  | webSearchToolResult (content : List SearchResultItem)
  | otherBlock
deriving DecidableEq

/-! ## CitationExtractor (src/server.js:224-242) -/

/-- `extractCitations(content)`: one Citation per nested
`web_search_result`, in source order, no deduplication. -/
def extractCitations (content : List ContentBlock) : List Citation :=
  content.flatMap fun b =>
    match b with
    | .webSearchToolResult items =>
      items.flatMap fun it =>
        match it with
        | .webSearchResult r =>
          [{ title := r.title
           , url := r.url
           , snippet := if r.encryptedContent != "" then "[Content at source]" else r.pageSnippet
           , source := extractDomain r.url
           , publishedDate := r.pageAge }]
        | .otherItem => []
    | _ => []

/-! ## LiveURLVerifier (src/server.js:191-217) -/

/-- The observable outcome of one `fetch` call: a settled response with a
status code, or a thrown exception (timeout/abort, resolution failure,
protocol error alike). -/
inductive FetchOutcome where
  | status (code : Nat)
  | throws
deriving DecidableEq

/-- `Response.ok`: status in the inclusive range 200-299. -/
def respOk (code : Nat) : Bool := 200 ≤ code && code ≤ 299

/-- `verifyUrl` as a function of the two stages' outcomes: stage 1 is the
HEAD request; only when it throws is stage 2 (the `Range: bytes=0-0` GET)
consulted; any stage-2 exception yields `false`. Totality of this function is
the model of "no exception propagates out of `verifyUrl`": both catch blocks
return a Bool. -/
def verifyUrl (stage1 stage2 : FetchOutcome) : Bool :=
  match stage1 with
  | .status c => respOk c || c == 403 || c == 405
  | .throws =>
    match stage2 with
    | .status c => respOk c || c == 206 || c == 403
    | .throws => false

/-- Instrumentation: the stage-2 fetch is issued exactly when stage 1
throws (it sits in stage 1's catch block). -/
def stage2Called : FetchOutcome → Bool
  | .status _ => false
  | .throws => true

/-- The spec's "successful" response, as a proposition over the status. -/
def isSuccess (code : Nat) : Prop := 200 ≤ code ∧ code ≤ 299

/-! ## CrossReferenceMatcher (src/server.js:379-441) -/

/-- The `realUrlSet` of src/server.js:381-385: for each citation, its
normalized `hostname + pathname` key (when the URL parses) and its exact URL
string. Modelled as a list; only membership is ever read. -/
def buildUrlKeys (citations : List Citation) : List String :=
  citations.flatMap fun c =>
    (match parseUrl c.url with
     | some u => [u.hostname ++ u.pathname]
     | none => []) ++ [c.url]

/-- The `realDomainSet` of src/server.js:386: the citations' source
domains. -/
def citationDomains (citations : List Citation) : List String :=
  citations.map fun c => c.source

/-- The claim's normalized key (src/server.js:413-414): `hostname + pathname`,
falling back to the raw URL string when `new URL` throws. -/
def urlKey (url : String) : String :=
  match parseUrl url with
  | some u => u.hostname ++ u.pathname
  | none => url

/-- The `item` literal of src/server.js:393-405: defaults applied, `verified`
false, empty note, id from the request timestamp and the index. -/
def normalizeItem (city : String) (now : Nat) (i : Nat) (it : RawItem) : Claim :=
  { id := "l" ++ toString now ++ "_" ++ toString i
  , title := it.title
  , summary := it.summary
  , source := jsOr it.source "Unknown"
  , url := it.url
  , timestamp := jsOr it.timestamp "Recent"
  , category := jsOr it.category "other"
  , severity := jsOr it.severity "medium"
  , location := jsOr it.location city
  , verified := false
  , verificationNote := "" }

/-- The result of classifying one claim: the finished claim, which list it
goes to, and how many live probes were issued for it. -/
structure Classified where
  claim : Claim
  accepted : Bool
  probes : Nat
deriving DecidableEq

/-- The body of the loop at src/server.js:407-440 for one claim: the NoURL
short-circuit, the exact/normalized match, then the known-domain and
unknown-domain probe branches with their distinct rejection labels.
`probes` counts the `verifyUrl` calls the branch performs. -/
def classifyItem (urlSet domainSet : List String) (probe : String → Bool)
    (item : Claim) : Classified :=
  if item.url == "" || !(jsStartsWith item.url "http") then
    { claim := { item with verificationNote := "REJECTED — No valid URL" }
    , accepted := false, probes := 0 }
  else if urlSet.contains (urlKey item.url) || urlSet.contains item.url then
    { claim := { item with verified := true, verificationNote := "Confirmed — URL found in web search results" }
    , accepted := true, probes := 0 }
  else if domainSet.contains (extractDomain item.url) then
    if probe item.url then
      { claim := { item with verified := true, verificationNote := "Verified — URL responds (domain from search results)" }
      , accepted := true, probes := 1 }
    else
      { claim := { item with verificationNote := "REJECTED — URL does not respond" }
      , accepted := false, probes := 1 }
  else
    if probe item.url then
      { claim := { item with verified := true, verificationNote := "Verified — URL responds" }
      , accepted := true, probes := 1 }
    else
      { claim := { item with verificationNote := "REJECTED — URL does not exist (likely fabricated)" }
      , accepted := false, probes := 1 }

/-- The `for` loop of src/server.js:391-441: each candidate, in order, is
normalized, classified and pushed onto exactly one of
(`verifiedItems`, `rejectedItems`). `i` is the running index used in ids. -/
def crossRefLoop (urlSet domainSet : List String) (probe : String → Bool)
    (city : String) (now : Nat) : Nat → List RawItem → List Claim × List Claim
  | _, [] => ([], [])
  | i, it :: rest =>
    if (classifyItem urlSet domainSet probe (normalizeItem city now i it)).accepted then
      ((classifyItem urlSet domainSet probe (normalizeItem city now i it)).claim
         :: (crossRefLoop urlSet domainSet probe city now (i + 1) rest).1,
       (crossRefLoop urlSet domainSet probe city now (i + 1) rest).2)
    else
      ((crossRefLoop urlSet domainSet probe city now (i + 1) rest).1,
       (classifyItem urlSet domainSet probe (normalizeItem city now i it)).claim
         :: (crossRefLoop urlSet domainSet probe city now (i + 1) rest).2)

/-- The whole cross-reference branch body (sets built from the citations,
then the loop from index 0): (`verifiedItems`, `rejectedItems`). -/
def crossReference (citations : List Citation) (items : List RawItem)
    (probe : String → Bool) (city : String) (now : Nat) : List Claim × List Claim :=
  crossRefLoop (buildUrlKeys citations) (citationDomains citations) probe city now 0 items

/-! ## VerificationReportBuilder (the response literals of src/server.js) -/

/-- The empty response of the no-results, no-citations and parse-failure
branches (src/server.js:354, 376, 458). -/
def emptyResponse (citations : List Citation) : SearchResponse :=
  { items := [], verifiedSources := citations, rejected := []
  , stats := { totalFound := 0, verified := 0, rejected := 0 } }

/-- One synthesized claim of the citations fallback (src/server.js:361-373). -/
def synthClaim (city : String) (now : Nat) (i : Nat) (c : Citation) : Claim :=
  { id := "v" ++ toString now ++ "_" ++ toString i
  , title := c.title
  , summary := jsOr c.snippet "Click source link to read the original article."
  , source := c.source
  , url := c.url
  , timestamp := jsOr c.publishedDate "Recent"
  , category := "other"
  , severity := "medium"
  , location := city
  , verified := true
  , verificationNote := "Direct from web search results" }

/-- The citations-fallback response (src/server.js:360-374): one claim per
citation that has a truthy url and title, indexed within the filtered list;
stats count the synthesized items. -/
def synthResponse (citations : List Citation) (city : String) (now : Nat) : SearchResponse :=
  { items := ((citations.filter fun c => c.url != "" && c.title != "").enum.map
      fun p => synthClaim city now p.1 p.2)
  , verifiedSources := citations
  , rejected := []
  , stats :=
    { totalFound := ((citations.filter fun c => c.url != "" && c.title != "").enum.map
        fun p => synthClaim city now p.1 p.2).length
    , verified := ((citations.filter fun c => c.url != "" && c.title != "").enum.map
        fun p => synthClaim city now p.1 p.2).length
    , rejected := 0 } }

/-- The cross-reference branch response (src/server.js:450-455). -/
def crossRefResponse (citations : List Citation) (items : List RawItem)
    (probe : String → Bool) (city : String) (now : Nat) : SearchResponse :=
  { items := (crossReference citations items probe city now).1
  , verifiedSources := citations
  , rejected := (crossReference citations items probe city now).2
  , stats :=
    { totalFound := items.length
    , verified := (crossReference citations items probe city now).1.length
    , rejected := (crossReference citations items probe city now).2.length } }

/-- The text segments of the response (src/server.js:334). -/
def textParts (content : List ContentBlock) : List String :=
  content.filterMap fun b =>
    match b with
    | .text t => some t
    | _ => none

/-- `cleaned` of src/server.js:350-351: text parts joined with newlines,
code fences removed, trimmed. -/
def cleanedText (content : List ContentBlock) : String :=
  ⟨jsTrim (stripFences (strJoin "\n" (textParts content)).data)⟩

/-- `cleaned.includes('"no_results"')` (src/server.js:353). -/
def noResultsFlag (s : String) : Bool :=
  hasSub "\"no_results\"".data s.data

/-- The verification pipeline of src/server.js:333-459, from the upstream
content blocks to the HTTP response body: the no-results short-circuit, the
synthesized-from-citations fallback, the parse-failure degradation, and the
full cross-reference branch. -/
def searchPipeline (content : List ContentBlock)
    (parse : String → Option (List RawItem)) (probe : String → Bool)
    (city : String) (now : Nat) : SearchResponse :=
  if noResultsFlag (cleanedText content) then
    emptyResponse (extractCitations content)
  else
    match bracketMatch (cleanedText content) with
    | none =>
      if (extractCitations content).length > 0 then
        synthResponse (extractCitations content) city now
      else
        emptyResponse (extractCitations content)
    | some m =>
      match parse m with
      | none => emptyResponse (extractCitations content)
      | some parsedItems =>
        crossRefResponse (extractCitations content) parsedItems probe city now

/-! ## The v2.0 cross-reference loop (src/unnamed/part_000:253-306)

The earlier server version carries its own copy of the classification loop.
It is embedded separately, from its own source lines, so the two can be
compared. The v2.0 loop consumes `realUrlSet`/`realDomainSet` built by code
identical to src/server.js:381-386 (part_000:243-248), so the set builders
`buildUrlKeys`/`citationDomains` are shared. -/

/-- The `item` literal of part_000:255-267 (identical text to v3.0's). -/
def normalizeItemV2 (city : String) (now : Nat) (i : Nat) (it : RawItem) : Claim :=
  { id := "l" ++ toString now ++ "_" ++ toString i
  , title := it.title
  , summary := it.summary
  , source := jsOr it.source "Unknown"
  , url := it.url
  , timestamp := jsOr it.timestamp "Recent"
  , category := jsOr it.category "other"
  , severity := jsOr it.severity "medium"
  , location := jsOr it.location city
  , verified := false
  , verificationNote := "" }

/-- The loop body of part_000:269-305. -/
def classifyItemV2 (urlSet domainSet : List String) (probe : String → Bool)
    (item : Claim) : Classified :=
  if item.url == "" || !(jsStartsWith item.url "http") then
    { claim := { item with verificationNote := "REJECTED — No valid URL" }
    , accepted := false, probes := 0 }
  else if urlSet.contains (urlKey item.url) || urlSet.contains item.url then
    { claim := { item with verified := true, verificationNote := "Confirmed — URL found in web search results" }
    , accepted := true, probes := 0 }
  else if domainSet.contains (extractDomain item.url) then
    if probe item.url then
      { claim := { item with verified := true, verificationNote := "Verified — URL responds (domain from search results)" }
      , accepted := true, probes := 1 }
    else
      { claim := { item with verificationNote := "REJECTED — URL does not respond" }
      , accepted := false, probes := 1 }
  else
    if probe item.url then
      { claim := { item with verified := true, verificationNote := "Verified — URL responds" }
      , accepted := true, probes := 1 }
    else
      { claim := { item with verificationNote := "REJECTED — URL does not exist (likely fabricated)" }
      , accepted := false, probes := 1 }

/-- The `for` loop of part_000:253-306. -/
def crossRefLoopV2 (urlSet domainSet : List String) (probe : String → Bool)
    (city : String) (now : Nat) : Nat → List RawItem → List Claim × List Claim
  | _, [] => ([], [])
  | i, it :: rest =>
    if (classifyItemV2 urlSet domainSet probe (normalizeItemV2 city now i it)).accepted then
      ((classifyItemV2 urlSet domainSet probe (normalizeItemV2 city now i it)).claim
         :: (crossRefLoopV2 urlSet domainSet probe city now (i + 1) rest).1,
       (crossRefLoopV2 urlSet domainSet probe city now (i + 1) rest).2)
    else
      ((crossRefLoopV2 urlSet domainSet probe city now (i + 1) rest).1,
       (classifyItemV2 urlSet domainSet probe (normalizeItemV2 city now i it)).claim
         :: (crossRefLoopV2 urlSet domainSet probe city now (i + 1) rest).2)

/-- The v2.0 cross-reference branch (part_000:243-306). -/
def crossReferenceV2 (citations : List Citation) (items : List RawItem)
    (probe : String → Bool) (city : String) (now : Nat) : List Claim × List Claim :=
  crossRefLoopV2 (buildUrlKeys citations) (citationDomains citations) probe city now 0 items

/-- The v2.0 stats object (part_000:325-329). -/
def crossRefStatsV2 (citations : List Citation) (items : List RawItem)
    (probe : String → Bool) (city : String) (now : Nat) : SearchStats :=
  { totalFound := items.length
  , verified := (crossReferenceV2 citations items probe city now).1.length
  , rejected := (crossReferenceV2 citations items probe city now).2.length }

/-- The v3.0 stats object (src/server.js:454). -/
def crossRefStats (citations : List Citation) (items : List RawItem)
    (probe : String → Bool) (city : String) (now : Nat) : SearchStats :=
  { totalFound := items.length
  , verified := (crossReference citations items probe city now).1.length
  , rejected := (crossReference citations items probe city now).2.length }

/-- The category enumeration of the prompt's format line
(src/server.js:307). -/
def categoryVocab : List String :=
  ["karst_sinkholes", "geothermal", "water_wells", "foundation", "construction",
   "environment", "infrastructure", "traffic", "waste", "education", "safety",
   "government", "housing", "water_sewer", "other"]

/-- The severity enumeration of the prompt's format line
(src/server.js:307). -/
def severityVocab : List String := ["critical", "high", "medium", "low"]

/-- The spec's description of domain extraction, for comparison with the
source's `extractDomain`: "lowercases the host and strips a leading `www.`
prefix; on an unparsable URL, domain falls back to a literal `Unknown`
sentinel". -/
def specExtractDomain (url : String) : String :=
  match parseUrl url with
  | some u =>
    if "www.".data.isPrefixOf u.hostname.data then ⟨u.hostname.data.drop 4⟩
    else u.hostname
  | none => "Unknown"

/-! ## Helper lemmas -/

/-- ASCII lowercasing is idempotent. -/
theorem toLower_toLower (c : Char) : (Char.toLower c).toLower = Char.toLower c := by
  unfold Char.toLower
  by_cases h : c.toNat ≥ 65 ∧ c.toNat ≤ 90
  · rw [if_pos h]
    have hv : Nat.isValidChar (c.toNat + 32) := Or.inl (by omega)
    have ht : (Char.ofNat (c.toNat + 32)).toNat = c.toNat + 32 := by
      simp only [Char.ofNat, dif_pos hv]
      rfl
    rw [ht, if_neg (by omega)]
  · rw [if_neg h, if_neg h]

/-- Every character of a lowercased list is fixed by `toLower`. -/
theorem lowerStr_fixed (cs : List Char) : ∀ c ∈ lowerStr cs, Char.toLower c = c := by
  intro c hc
  rcases List.mem_map.mp hc with ⟨x, _, hx⟩
  rw [← hx]
  exact toLower_toLower x

/-- Removing the first occurrence of a pattern yields a sublist. -/
theorem stripFirst_sublist (pat : List Char) : ∀ cs : List Char, (stripFirst pat cs).Sublist cs
  | [] => by rw [stripFirst]
  | c :: rest => by
    rw [stripFirst]
    split
    · exact List.drop_sublist pat.length (c :: rest)
    · exact List.Sublist.cons₂ c (stripFirst_sublist pat rest)

/-- A successfully parsed URL has a `toLower`-fixed (lowercase) hostname. -/
theorem parseUrl_hostname_lower (url : String) (u : UrlParts)
    (h : parseUrl url = some u) : ∀ c ∈ u.hostname.data, Char.toLower c = c := by
  unfold parseUrl at h
  cases hs : schemeRest url.data with
  | none => rw [hs] at h; exact absurd h (by simp)
  | some rest =>
    rw [hs] at h
    simp only at h
    split at h
    · injection h with h
      rw [← h]
      exact lowerStr_fixed (hostOf rest)
    · exact absurd h (by simp)

/-- Normalization keeps the candidate's URL as-is. -/
theorem normalizeItem_url (city : String) (now i : Nat) (it : RawItem) :
    (normalizeItem city now i it).url = it.url := rfl

/-- A claim with a falsy URL or a URL without the `http` marker is rejected
as NoURL, with no probe. -/
theorem classifyItem_noUrl (urlSet domainSet : List String) (probe : String → Bool)
    (item : Claim) (h : item.url = "" ∨ jsStartsWith item.url "http" = false) :
    classifyItem urlSet domainSet probe item =
      { claim := { item with verificationNote := "REJECTED — No valid URL" }
      , accepted := false, probes := 0 } := by
  unfold classifyItem
  rw [if_pos]
  rcases h with h | h
  · simp [h]
  · simp [h]

/-- A URL-bearing claim whose normalized key or raw URL is in the citation
URL set is confirmed without a probe. -/
theorem classifyItem_confirmed (urlSet domainSet : List String) (probe : String → Bool)
    (item : Claim) (h1 : ¬item.url = "") (h2 : jsStartsWith item.url "http" = true)
    (h3 : urlKey item.url ∈ urlSet ∨ item.url ∈ urlSet) :
    classifyItem urlSet domainSet probe item =
      { claim := { item with verified := true, verificationNote := "Confirmed — URL found in web search results" }
      , accepted := true, probes := 0 } := by
  unfold classifyItem
  rw [if_neg (by simp [h1, h2]), if_pos]
  rcases h3 with h3 | h3 <;> simp [List.contains, List.elem_eq_mem, h3]

/-- An accepted classification always carries `verified = true` and a
non-empty note. -/
theorem classifyItem_accepted_props (urlSet domainSet : List String)
    (probe : String → Bool) (item : Claim)
    (h : (classifyItem urlSet domainSet probe item).accepted = true) :
    (classifyItem urlSet domainSet probe item).claim.verified = true ∧
    (classifyItem urlSet domainSet probe item).claim.verificationNote ≠ "" := by
  unfold classifyItem at *
  split_ifs at h ⊢ <;> simp_all

/-- A rejected classification leaves `verified` untouched and writes a note
that starts with `REJECTED`. -/
theorem classifyItem_rejected_props (urlSet domainSet : List String)
    (probe : String → Bool) (item : Claim)
    (h : (classifyItem urlSet domainSet probe item).accepted = false) :
    (classifyItem urlSet domainSet probe item).claim.verified = item.verified ∧
    jsStartsWith (classifyItem urlSet domainSet probe item).claim.verificationNote "REJECTED" = true := by
  unfold classifyItem at *
  split_ifs at h ⊢ <;> simp_all <;> decide

/-- Classification never edits the category or severity fields. -/
theorem classifyItem_preserves (urlSet domainSet : List String)
    (probe : String → Bool) (item : Claim) :
    (classifyItem urlSet domainSet probe item).claim.category = item.category ∧
    (classifyItem urlSet domainSet probe item).claim.severity = item.severity := by
  unfold classifyItem
  split_ifs <;> exact ⟨rfl, rfl⟩

/-- Every candidate claim lands in exactly one of the two lists: the list
lengths always sum to the candidate count. -/
theorem crossRefLoop_length (urlSet domainSet : List String) (probe : String → Bool)
    (city : String) (now : Nat) :
    ∀ (i : Nat) (items : List RawItem),
      (crossRefLoop urlSet domainSet probe city now i items).1.length +
        (crossRefLoop urlSet domainSet probe city now i items).2.length = items.length
  | _, [] => rfl
  | i, it :: rest => by
    have ih := crossRefLoop_length urlSet domainSet probe city now (i + 1) rest
    rw [crossRefLoop]
    split <;> simp only [List.length_cons] <;> omega

/-- Every member of the loop's accepted list is verified with a non-empty
note. -/
theorem crossRefLoop_accepted_mem (urlSet domainSet : List String) (probe : String → Bool)
    (city : String) (now : Nat) :
    ∀ (i : Nat) (items : List RawItem) (cl : Claim),
      cl ∈ (crossRefLoop urlSet domainSet probe city now i items).1 →
      cl.verified = true ∧ cl.verificationNote ≠ ""
  | _, [], _, h => absurd h (by simp [crossRefLoop])
  | i, it :: rest, cl, h => by
    rw [crossRefLoop] at h
    split at h
    · rcases List.mem_cons.mp h with h | h
      · subst h
        exact classifyItem_accepted_props _ _ _ _ (by assumption)
      · exact crossRefLoop_accepted_mem urlSet domainSet probe city now (i + 1) rest cl h
    · exact crossRefLoop_accepted_mem urlSet domainSet probe city now (i + 1) rest cl h

/-- Every member of the loop's rejected list is unverified with a
`REJECTED`-labelled note. -/
theorem crossRefLoop_rejected_mem (urlSet domainSet : List String) (probe : String → Bool)
    (city : String) (now : Nat) :
    ∀ (i : Nat) (items : List RawItem) (cl : Claim),
      cl ∈ (crossRefLoop urlSet domainSet probe city now i items).2 →
      cl.verified = false ∧ jsStartsWith cl.verificationNote "REJECTED" = true
  | _, [], _, h => absurd h (by simp [crossRefLoop])
  | i, it :: rest, cl, h => by
    rw [crossRefLoop] at h
    split at h
    · exact crossRefLoop_rejected_mem urlSet domainSet probe city now (i + 1) rest cl h
    · rcases List.mem_cons.mp h with h | h
      · subst h
        have hx : (classifyItem urlSet domainSet probe (normalizeItem city now i it)).accepted = false := by
          rename_i hcond
          simpa using hcond
        exact classifyItem_rejected_props urlSet domainSet probe (normalizeItem city now i it) hx
      · exact crossRefLoop_rejected_mem urlSet domainSet probe city now (i + 1) rest cl h

/-- The classified claim of the candidate at offset `j` is a member of the
list its accepted flag selects. -/
theorem crossRefLoop_mem_at (urlSet domainSet : List String) (probe : String → Bool)
    (city : String) (now : Nat) :
    ∀ (items : List RawItem) (i j : Nat) (hj : j < items.length),
      ((classifyItem urlSet domainSet probe
          (normalizeItem city now (i + j) (items.get ⟨j, hj⟩))).accepted = true →
        (classifyItem urlSet domainSet probe
          (normalizeItem city now (i + j) (items.get ⟨j, hj⟩))).claim ∈
          (crossRefLoop urlSet domainSet probe city now i items).1) ∧
      ((classifyItem urlSet domainSet probe
          (normalizeItem city now (i + j) (items.get ⟨j, hj⟩))).accepted = false →
        (classifyItem urlSet domainSet probe
          (normalizeItem city now (i + j) (items.get ⟨j, hj⟩))).claim ∈
          (crossRefLoop urlSet domainSet probe city now i items).2)
  | [], _, j, hj => absurd hj (by simp)
  | it :: rest, i, 0, hj => by
    constructor <;> intro ha
    · have ha' : (classifyItem urlSet domainSet probe
          (normalizeItem city now i it)).accepted = true := ha
      show (classifyItem urlSet domainSet probe (normalizeItem city now i it)).claim ∈
        (crossRefLoop urlSet domainSet probe city now i (it :: rest)).1
      rw [crossRefLoop, if_pos ha']
      exact List.mem_cons_self _ _
    · have ha' : (classifyItem urlSet domainSet probe
          (normalizeItem city now i it)).accepted = false := ha
      show (classifyItem urlSet domainSet probe (normalizeItem city now i it)).claim ∈
        (crossRefLoop urlSet domainSet probe city now i (it :: rest)).2
      rw [crossRefLoop, if_neg (by rw [ha']; exact Bool.false_ne_true)]
      exact List.mem_cons_self _ _
  | it :: rest, i, j + 1, hj => by
    have hj' : j < rest.length := Nat.lt_of_succ_lt_succ hj
    have ih := crossRefLoop_mem_at urlSet domainSet probe city now rest (i + 1) j hj'
    have harith : i + (j + 1) = (i + 1) + j := by omega
    constructor <;> intro ha <;> rw [crossRefLoop] <;> rw [harith] at ha ⊢ <;> split
    · exact List.mem_cons_of_mem _ (ih.1 ha)
    · exact ih.1 ha
    · exact ih.2 ha
    · exact List.mem_cons_of_mem _ (ih.2 ha)

/-- Conversely, every member of either output list is the classification of
some candidate. -/
theorem crossRefLoop_mem_inv (urlSet domainSet : List String) (probe : String → Bool)
    (city : String) (now : Nat) :
    ∀ (items : List RawItem) (i : Nat) (cl : Claim),
      (cl ∈ (crossRefLoop urlSet domainSet probe city now i items).1 ∨
       cl ∈ (crossRefLoop urlSet domainSet probe city now i items).2) →
      ∃ (j : Nat) (hj : j < items.length),
        cl = (classifyItem urlSet domainSet probe
          (normalizeItem city now (i + j) (items.get ⟨j, hj⟩))).claim
  | [], _, cl, h => absurd h (by simp [crossRefLoop])
  | it :: rest, i, cl, h => by
    have harith : ∀ j : Nat, i + (j + 1) = (i + 1) + j := fun j => by omega
    have step : ∀ j : Nat, ∀ hj : j < rest.length,
        cl = (classifyItem urlSet domainSet probe
          (normalizeItem city now ((i + 1) + j) (rest.get ⟨j, hj⟩))).claim →
        ∃ (j' : Nat) (hj' : j' < (it :: rest).length),
          cl = (classifyItem urlSet domainSet probe
            (normalizeItem city now (i + j') ((it :: rest).get ⟨j', hj'⟩))).claim := by
      intro j hj hcl
      exact ⟨j + 1, Nat.succ_lt_succ hj, by rw [harith j]; exact hcl⟩
    rw [crossRefLoop] at h
    split at h
    · rcases h with h | h
      · rcases List.mem_cons.mp h with h | h
        · exact ⟨0, Nat.succ_pos rest.length, h⟩
        · rcases crossRefLoop_mem_inv urlSet domainSet probe city now rest (i + 1) cl
            (Or.inl h) with ⟨j, hj, hcl⟩
          exact step j hj hcl
      · rcases crossRefLoop_mem_inv urlSet domainSet probe city now rest (i + 1) cl
          (Or.inr h) with ⟨j, hj, hcl⟩
        exact step j hj hcl
    · rcases h with h | h
      · rcases crossRefLoop_mem_inv urlSet domainSet probe city now rest (i + 1) cl
          (Or.inl h) with ⟨j, hj, hcl⟩
        exact step j hj hcl
      · rcases List.mem_cons.mp h with h | h
        · exact ⟨0, Nat.succ_pos rest.length, h⟩
        · rcases crossRefLoop_mem_inv urlSet domainSet probe city now rest (i + 1) cl
            (Or.inr h) with ⟨j, hj, hcl⟩
          exact step j hj hcl

/-- Every extracted citation's `source` field is the extracted domain of its
own URL (src/server.js:234). -/
theorem extractCitations_source (content : List ContentBlock) :
    ∀ c ∈ extractCitations content, c.source = extractDomain c.url := by
  intro c hc
  unfold extractCitations at hc
  rcases List.mem_flatMap.mp hc with ⟨b, _, hcb⟩
  cases b with
  | text t => exact absurd hcb (by simp)
  | otherBlock => exact absurd hcb (by simp)
  | webSearchToolResult items =>
    rcases List.mem_flatMap.mp hcb with ⟨it, _, hcit⟩
    cases it with
    | otherItem => exact absurd hcit (by simp)
    | webSearchResult r =>
      rcases List.mem_singleton.mp hcit with rfl
      rfl

/-- The v2.0 normalizer is the v3.0 normalizer (their source lines are
identical). -/
theorem normalizeItemV2_eq : normalizeItemV2 = normalizeItem := rfl

/-- The v2.0 loop body is the v3.0 loop body (their source lines are
identical). -/
theorem classifyItemV2_eq : classifyItemV2 = classifyItem := rfl

/-- The two loops agree on every input. -/
theorem crossRefLoopV2_eq (urlSet domainSet : List String) (probe : String → Bool)
    (city : String) (now : Nat) :
    ∀ (i : Nat) (items : List RawItem),
      crossRefLoopV2 urlSet domainSet probe city now i items =
        crossRefLoop urlSet domainSet probe city now i items
  | _, [] => rfl
  | i, it :: rest => by
    rw [crossRefLoopV2, crossRefLoop, classifyItemV2_eq, normalizeItemV2_eq,
      crossRefLoopV2_eq urlSet domainSet probe city now (i + 1) rest]

/-! ## Claim theorems -/

/-- C1: for every response produced by the `/api/search` verification
pipeline — the no-results short-circuit, the synthesized-from-citations
fallback, the parse-failure degradation, and the full cross-reference branch
alike — the returned stats satisfy
`stats.verified + stats.rejected = stats.totalFound`, where `verified` is the
accepted-list length and `rejected` is the rejected-list length. -/
theorem searchPipeline_stats_invariant (content : List ContentBlock)
    (parse : String → Option (List RawItem)) (probe : String → Bool)
    (city : String) (now : Nat) :
    (searchPipeline content parse probe city now).stats.verified +
        (searchPipeline content parse probe city now).stats.rejected =
      (searchPipeline content parse probe city now).stats.totalFound ∧
    (searchPipeline content parse probe city now).stats.verified =
      (searchPipeline content parse probe city now).items.length ∧
    (searchPipeline content parse probe city now).stats.rejected =
      (searchPipeline content parse probe city now).rejected.length := by
  unfold searchPipeline
  split
  · exact ⟨rfl, rfl, rfl⟩
  · split
    · split
      · exact ⟨rfl, rfl, rfl⟩
      · exact ⟨rfl, rfl, rfl⟩
    · split
      · exact ⟨rfl, rfl, rfl⟩
      · exact ⟨crossRefLoop_length _ _ probe city now 0 _, rfl, rfl⟩

/-- C4: the live probe classifies a URL alive exactly when stage 1 settles
with a successful, 403 or 405 status, or stage 1 throws and stage 2 settles
with a successful, 206 or 403 status; stage 2 runs exactly when stage 1
throws, so a non-qualifying stage-1 status classifies dead without a second
request, and `verifyUrl` is total (a Bool for every outcome pair), the model
of "no exception propagates". -/
theorem verifyUrl_alive_characterization (s1 s2 : FetchOutcome) :
    (verifyUrl s1 s2 = true ↔
      ((∃ c, s1 = .status c ∧ (isSuccess c ∨ c = 403 ∨ c = 405)) ∨
       (s1 = .throws ∧ ∃ c, s2 = .status c ∧ (isSuccess c ∨ c = 206 ∨ c = 403)))) ∧
    (stage2Called s1 = true ↔ s1 = .throws) := by
  cases s1 <;> cases s2 <;>
    simp [verifyUrl, stage2Called, respOk, isSuccess, Bool.or_eq_true,
      Bool.and_eq_true, decide_eq_true_iff, beq_iff_eq] <;>
    omega

/-- C6, counterexample: `extractDomain` removes the FIRST occurrence of
`"www."` anywhere in the host, not only a leading prefix: on
`https://notwww.example.com/x` the code yields `notexample.com`, while the
spec's description (`specExtractDomain`) yields the untouched host. -/
theorem extractDomain_first_occurrence_cex :
    extractDomain "https://notwww.example.com/x" = "notexample.com" ∧
    specExtractDomain "https://notwww.example.com/x" = "notwww.example.com" ∧
    extractDomain "https://notwww.example.com/x" ≠
      specExtractDomain "https://notwww.example.com/x" := by
  decide

/-- C6, amended: for every URL, `extractDomain` returns the sentinel
`"Unknown"` when the URL is unparsable, and otherwise the parsed (lowercase)
host with the first occurrence of the substring `"www."` removed; the result
is always `toLower`-fixed (lowercase). -/
theorem extractDomain_characterization (url : String) :
    (parseUrl url = none → extractDomain url = "Unknown") ∧
    (∀ u, parseUrl url = some u →
      extractDomain url = ⟨stripFirst "www.".data u.hostname.data⟩ ∧
      ∀ c ∈ (extractDomain url).data, Char.toLower c = c) := by
  constructor
  · intro h
    unfold extractDomain
    rw [h]
  · intro u h
    have he : extractDomain url = ⟨stripFirst "www.".data u.hostname.data⟩ := by
      unfold extractDomain
      rw [h]
    refine ⟨he, ?_⟩
    rw [he]
    intro c hc
    exact parseUrl_hostname_lower url u h c ((stripFirst_sublist _ _).subset hc)

/-- C8: in the cross-reference branch every candidate lands in exactly one of
the accepted and rejected lists (the lengths sum to the candidate count and
the lists are disjoint); accepted claims carry `verified = true` and a
non-empty note; rejected claims carry `verified = false` and a note that
starts with `REJECTED`. -/
theorem crossReference_partition_sound (citations : List Citation)
    (items : List RawItem) (probe : String → Bool) (city : String) (now : Nat) :
    ((crossReference citations items probe city now).1.length +
        (crossReference citations items probe city now).2.length = items.length) ∧
    (∀ cl ∈ (crossReference citations items probe city now).1,
        cl.verified = true ∧ cl.verificationNote ≠ "") ∧
    (∀ cl ∈ (crossReference citations items probe city now).2,
        cl.verified = false ∧ jsStartsWith cl.verificationNote "REJECTED" = true) ∧
    (∀ cl, ¬(cl ∈ (crossReference citations items probe city now).1 ∧
             cl ∈ (crossReference citations items probe city now).2)) := by
  refine ⟨crossRefLoop_length _ _ _ _ _ 0 items,
    fun cl h => crossRefLoop_accepted_mem _ _ _ _ _ 0 items cl h,
    fun cl h => crossRefLoop_rejected_mem _ _ _ _ _ 0 items cl h,
    fun cl h => ?_⟩
  have h1 := (crossRefLoop_accepted_mem _ _ _ _ _ 0 items cl h.1).1
  have h2 := (crossRefLoop_rejected_mem _ _ _ _ _ 0 items cl h.2).1
  rw [h1] at h2
  exact absurd h2 (by simp)

/-- C9: on every citation list, candidate list and probe-outcome assignment,
the v2.0 (src/unnamed/part_000) and v3.0 (src/server.js) cross-reference
loops produce identical verified/rejected partitions (hence identical
verification notes per claim) and identical stats. -/
theorem crossReference_v2_v3_equivalent (citations : List Citation)
    (items : List RawItem) (probe : String → Bool) (city : String) (now : Nat) :
    crossReferenceV2 citations items probe city now =
      crossReference citations items probe city now ∧
    crossRefStatsV2 citations items probe city now =
      crossRefStats citations items probe city now := by
  have h := crossRefLoopV2_eq (buildUrlKeys citations) (citationDomains citations)
    probe city now 0 items
  refine ⟨h, ?_⟩
  unfold crossRefStatsV2 crossRefStats crossReferenceV2 crossReference
  rw [h]

/-- C2: a candidate whose url is empty or lacks the `http` marker is
rejected as NoURL by the pipeline: it appears in the rejected diagnostic
list with the `REJECTED — No valid URL` note, is excluded from the response
items, and no live probe is issued for it. -/
theorem noUrl_claim_rejected_without_probe (content : List ContentBlock)
    (parse : String → Option (List RawItem)) (probe : String → Bool)
    (city : String) (now : Nat) (m : String) (items : List RawItem) (j : Nat)
    (hnr : noResultsFlag (cleanedText content) = false)
    (hm : bracketMatch (cleanedText content) = some m)
    (hp : parse m = some items)
    (hj : j < items.length)
    (hurl : (items.get ⟨j, hj⟩).url = "" ∨
            jsStartsWith (items.get ⟨j, hj⟩).url "http" = false) :
    ({ normalizeItem city now j (items.get ⟨j, hj⟩) with
        verificationNote := "REJECTED — No valid URL" } ∈
      (searchPipeline content parse probe city now).rejected) ∧
    ({ normalizeItem city now j (items.get ⟨j, hj⟩) with
        verificationNote := "REJECTED — No valid URL" } ∉
      (searchPipeline content parse probe city now).items) ∧
    (classifyItem (buildUrlKeys (extractCitations content))
        (citationDomains (extractCitations content)) probe
        (normalizeItem city now j (items.get ⟨j, hj⟩))).probes = 0 := by
  have hpipe : searchPipeline content parse probe city now =
      crossRefResponse (extractCitations content) items probe city now := by
    simp [searchPipeline, hnr, hm, hp]
  have hcl := classifyItem_noUrl (buildUrlKeys (extractCitations content))
    (citationDomains (extractCitations content)) probe
    (normalizeItem city now j (items.get ⟨j, hj⟩)) hurl
  have hmem := crossRefLoop_mem_at (buildUrlKeys (extractCitations content))
    (citationDomains (extractCitations content)) probe city now items 0 j hj
  rw [Nat.zero_add] at hmem
  rw [hcl] at hmem
  have hr := hmem.2 rfl
  refine ⟨?_, ?_, ?_⟩
  · rw [hpipe]
    exact hr
  · rw [hpipe]
    intro hmem1
    have hv := (crossRefLoop_accepted_mem (buildUrlKeys (extractCitations content))
      (citationDomains (extractCitations content)) probe city now 0 items _ hmem1).1
    have hfalse : (false : Bool) = true := hv
    exact absurd hfalse (by simp)
  · rw [hcl]

/-- C2 witness: Scenario B at a concrete input (one candidate, empty url). -/
theorem noUrl_claim_rejected_without_probe_witness :
    ({ normalizeItem "X" 0 0 ⟨"B", "", "", "", "", "", "", ""⟩ with
        verificationNote := "REJECTED — No valid URL" } ∈
      (searchPipeline [.text "[]"]
        (fun _ => some [⟨"B", "", "", "", "", "", "", ""⟩])
        (fun _ => false) "X" 0).rejected) ∧
    ({ normalizeItem "X" 0 0 ⟨"B", "", "", "", "", "", "", ""⟩ with
        verificationNote := "REJECTED — No valid URL" } ∉
      (searchPipeline [.text "[]"]
        (fun _ => some [⟨"B", "", "", "", "", "", "", ""⟩])
        (fun _ => false) "X" 0).items) ∧
    (classifyItem (buildUrlKeys (extractCitations [.text "[]"]))
        (citationDomains (extractCitations [.text "[]"])) (fun _ => false)
        (normalizeItem "X" 0 0 ⟨"B", "", "", "", "", "", "", ""⟩)).probes = 0 :=
  noUrl_claim_rejected_without_probe [.text "[]"]
    (fun _ => some [⟨"B", "", "", "", "", "", "", ""⟩]) (fun _ => false) "X" 0
    "[]" [⟨"B", "", "", "", "", "", "", ""⟩] 0
    (by decide) (by decide) rfl (by decide) (Or.inl rfl)

/-- C3 counterexample: the claim as stated omits the NoURL guard. Here the
candidate's raw url `""` matches a citation's exact URL string in the lookup
set, yet the claim is rejected as NoURL and excluded from `items`, not
Confirmed. -/
theorem confirmed_match_requires_scheme_cex :
    (("" : String) ∈ buildUrlKeys (extractCitations
        [.webSearchToolResult [.webSearchResult ⟨"T", "", "", "", ""⟩], .text "[]"])) ∧
    (searchPipeline
        [.webSearchToolResult [.webSearchResult ⟨"T", "", "", "", ""⟩], .text "[]"]
        (fun _ => some [⟨"A", "", "", "", "", "", "", ""⟩])
        (fun _ => false) "X" 0).items = [] ∧
    (searchPipeline
        [.webSearchToolResult [.webSearchResult ⟨"T", "", "", "", ""⟩], .text "[]"]
        (fun _ => some [⟨"A", "", "", "", "", "", "", ""⟩])
        (fun _ => false) "X" 0).rejected =
      [⟨"l0_0", "A", "", "Unknown", "", "Recent", "other", "medium", "X", false,
        "REJECTED — No valid URL"⟩] := by
  decide

/-- C3, amended: a candidate that passes the scheme check (nonempty url that
starts with `http`) and whose normalized key or raw url matches the citation
URL set is Confirmed: accepted into items with `verified = true`, kept out of
the rejected list, with zero live probes for that claim. -/
theorem matched_claim_confirmed_no_probe (content : List ContentBlock)
    (parse : String → Option (List RawItem)) (probe : String → Bool)
    (city : String) (now : Nat) (m : String) (items : List RawItem) (j : Nat)
    (hnr : noResultsFlag (cleanedText content) = false)
    (hm : bracketMatch (cleanedText content) = some m)
    (hp : parse m = some items)
    (hj : j < items.length)
    (hu1 : (items.get ⟨j, hj⟩).url ≠ "")
    (hu2 : jsStartsWith (items.get ⟨j, hj⟩).url "http" = true)
    (hmatch : urlKey (items.get ⟨j, hj⟩).url ∈ buildUrlKeys (extractCitations content) ∨
              (items.get ⟨j, hj⟩).url ∈ buildUrlKeys (extractCitations content)) :
    ({ normalizeItem city now j (items.get ⟨j, hj⟩) with verified := true, verificationNote := "Confirmed — URL found in web search results" } ∈
      (searchPipeline content parse probe city now).items) ∧
    ({ normalizeItem city now j (items.get ⟨j, hj⟩) with verified := true, verificationNote := "Confirmed — URL found in web search results" } ∉
      (searchPipeline content parse probe city now).rejected) ∧
    (classifyItem (buildUrlKeys (extractCitations content))
        (citationDomains (extractCitations content)) probe
        (normalizeItem city now j (items.get ⟨j, hj⟩))).probes = 0 := by
  have hpipe : searchPipeline content parse probe city now =
      crossRefResponse (extractCitations content) items probe city now := by
    simp [searchPipeline, hnr, hm, hp]
  have hcl := classifyItem_confirmed (buildUrlKeys (extractCitations content))
    (citationDomains (extractCitations content)) probe
    (normalizeItem city now j (items.get ⟨j, hj⟩)) hu1 hu2 hmatch
  have hmem := crossRefLoop_mem_at (buildUrlKeys (extractCitations content))
    (citationDomains (extractCitations content)) probe city now items 0 j hj
  rw [Nat.zero_add] at hmem
  rw [hcl] at hmem
  have hr := hmem.1 rfl
  refine ⟨?_, ?_, ?_⟩
  · rw [hpipe]
    exact hr
  · rw [hpipe]
    intro hmem1
    have hv := (crossRefLoop_rejected_mem (buildUrlKeys (extractCitations content))
      (citationDomains (extractCitations content)) probe city now 0 items _ hmem1).1
    have hfalse : (true : Bool) = false := hv
    exact absurd hfalse (by simp)
  · rw [hcl]

/-- C3 witness: Scenario A at a concrete input (candidate url equal to the
citation url). -/
theorem matched_claim_confirmed_no_probe_witness :
    ({ normalizeItem "X" 0 0 ⟨"A", "s", "src", "https://example.com/a", "t", "", "", ""⟩ with verified := true, verificationNote := "Confirmed — URL found in web search results" } ∈
      (searchPipeline
        [.webSearchToolResult [.webSearchResult ⟨"T", "https://example.com/a", "", "", ""⟩],
         .text "[]"]
        (fun _ => some [⟨"A", "s", "src", "https://example.com/a", "t", "", "", ""⟩])
        (fun _ => false) "X" 0).items) ∧
    ({ normalizeItem "X" 0 0 ⟨"A", "s", "src", "https://example.com/a", "t", "", "", ""⟩ with verified := true, verificationNote := "Confirmed — URL found in web search results" } ∉
      (searchPipeline
        [.webSearchToolResult [.webSearchResult ⟨"T", "https://example.com/a", "", "", ""⟩],
         .text "[]"]
        (fun _ => some [⟨"A", "s", "src", "https://example.com/a", "t", "", "", ""⟩])
        (fun _ => false) "X" 0).rejected) ∧
    (classifyItem
        (buildUrlKeys (extractCitations
          [.webSearchToolResult [.webSearchResult ⟨"T", "https://example.com/a", "", "", ""⟩],
           .text "[]"]))
        (citationDomains (extractCitations
          [.webSearchToolResult [.webSearchResult ⟨"T", "https://example.com/a", "", "", ""⟩],
           .text "[]"])) (fun _ => false)
        (normalizeItem "X" 0 0 ⟨"A", "s", "src", "https://example.com/a", "t", "", "", ""⟩)).probes = 0 :=
  matched_claim_confirmed_no_probe
    [.webSearchToolResult [.webSearchResult ⟨"T", "https://example.com/a", "", "", ""⟩],
     .text "[]"]
    (fun _ => some [⟨"A", "s", "src", "https://example.com/a", "t", "", "", ""⟩])
    (fun _ => false) "X" 0 "[]"
    [⟨"A", "s", "src", "https://example.com/a", "t", "", "", ""⟩] 0
    (by decide) (by decide) rfl (by decide) (by decide) (by decide) (Or.inl (by decide))

/-- C5 counterexample: the fallback does NOT synthesize one claim per
extracted citation: a citation with an empty title (or url) is filtered out.
Here one citation is extracted but the response carries zero items and stats
`{0, 0, 0}`, not `{1, 1, 0}`. -/
theorem synth_counts_filtered_cex :
    (extractCitations
        [.webSearchToolResult [.webSearchResult ⟨"", "https://x.com/a", "", "", ""⟩]]).length = 1 ∧
    (searchPipeline
        [.webSearchToolResult [.webSearchResult ⟨"", "https://x.com/a", "", "", ""⟩]]
        (fun _ => none) (fun _ => false) "X" 0).stats = ⟨0, 0, 0⟩ ∧
    (searchPipeline
        [.webSearchToolResult [.webSearchResult ⟨"", "https://x.com/a", "", "", ""⟩]]
        (fun _ => none) (fun _ => false) "X" 0).items = [] := by
  decide

/-- C5, amended: when the cleaned text contains no bracketed array substring
(and no no-results sentinel) and at least one citation was extracted, the
pipeline synthesizes exactly one claim per extracted citation that has a
non-empty url and title (title/url from the citation, summary from its
snippet or the generic placeholder, verified pre-set true with the
direct-from-search note), and returns stats `{n, n, 0}` where `n` is the
number of such filtered citations. -/
theorem synth_branch_from_citations (content : List ContentBlock)
    (parse : String → Option (List RawItem)) (probe : String → Bool)
    (city : String) (now : Nat)
    (hnr : noResultsFlag (cleanedText content) = false)
    (hm : bracketMatch (cleanedText content) = none)
    (hc : extractCitations content ≠ []) :
    searchPipeline content parse probe city now =
      synthResponse (extractCitations content) city now ∧
    (synthResponse (extractCitations content) city now).items =
      (((extractCitations content).filter fun c => c.url != "" && c.title != "").enum.map
        fun p => synthClaim city now p.1 p.2) ∧
    (synthResponse (extractCitations content) city now).stats =
      { totalFound :=
          ((extractCitations content).filter fun c => c.url != "" && c.title != "").length
      , verified :=
          ((extractCitations content).filter fun c => c.url != "" && c.title != "").length
      , rejected := 0 } := by
  refine ⟨?_, rfl, ?_⟩
  · simp [searchPipeline, hnr, hm, List.length_pos.mpr hc]
  · simp [synthResponse]

/-- C5 witness: the fallback at a concrete input (one well-formed citation,
no array in the text). -/
theorem synth_branch_from_citations_witness :
    searchPipeline
        [.webSearchToolResult [.webSearchResult ⟨"T", "https://x.com/a", "snip", "", "2024"⟩]]
        (fun _ => none) (fun _ => false) "X" 7 =
      synthResponse (extractCitations
        [.webSearchToolResult [.webSearchResult ⟨"T", "https://x.com/a", "snip", "", "2024"⟩]]) "X" 7 ∧
    (synthResponse (extractCitations
        [.webSearchToolResult [.webSearchResult ⟨"T", "https://x.com/a", "snip", "", "2024"⟩]]) "X" 7).items =
      (((extractCitations
        [.webSearchToolResult [.webSearchResult ⟨"T", "https://x.com/a", "snip", "", "2024"⟩]]).filter
          fun c => c.url != "" && c.title != "").enum.map
        fun p => synthClaim "X" 7 p.1 p.2) ∧
    (synthResponse (extractCitations
        [.webSearchToolResult [.webSearchResult ⟨"T", "https://x.com/a", "snip", "", "2024"⟩]]) "X" 7).stats =
      { totalFound :=
          ((extractCitations
            [.webSearchToolResult [.webSearchResult ⟨"T", "https://x.com/a", "snip", "", "2024"⟩]]).filter
              fun c => c.url != "" && c.title != "").length
      , verified :=
          ((extractCitations
            [.webSearchToolResult [.webSearchResult ⟨"T", "https://x.com/a", "snip", "", "2024"⟩]]).filter
              fun c => c.url != "" && c.title != "").length
      , rejected := 0 } :=
  synth_branch_from_citations
    [.webSearchToolResult [.webSearchResult ⟨"T", "https://x.com/a", "snip", "", "2024"⟩]]
    (fun _ => none) (fun _ => false) "X" 7 (by decide) (by decide) (by decide)

/-- C7 counterexample: the pipeline does not validate the category/severity
vocabularies: a candidate carrying `category := "bogus"` and
`severity := "extreme"` is emitted unchanged (here accepted via an exact URL
match), although neither value is in the fixed vocabulary. -/
theorem category_vocab_not_enforced_cex :
    (crossReference [⟨"T", "https://x.com/a", "s", "x.com", "d"⟩]
        [⟨"A", "s", "src", "https://x.com/a", "t", "bogus", "extreme", "L"⟩]
        (fun _ => false) "X" 0).1 =
      [⟨"l0_0", "A", "s", "src", "https://x.com/a", "t", "bogus", "extreme", "L", true,
        "Confirmed — URL found in web search results"⟩] ∧
    categoryVocab.contains "bogus" = false ∧
    severityVocab.contains "extreme" = false := by
  decide

/-- C7, amended: every claim emitted by the cross-reference branch (accepted
or rejected) carries the candidate's category when that was present and
`"other"` when absent, and the candidate's severity when present and
`"medium"` when absent; membership in the fixed vocabularies is not
enforced. -/
theorem emitted_claim_category_severity_defaulted (citations : List Citation)
    (items : List RawItem) (probe : String → Bool) (city : String) (now : Nat)
    (cl : Claim)
    (h : cl ∈ (crossReference citations items probe city now).1 ∨
         cl ∈ (crossReference citations items probe city now).2) :
    ∃ (j : Nat) (hj : j < items.length),
      cl.category = jsOr (items.get ⟨j, hj⟩).category "other" ∧
      cl.severity = jsOr (items.get ⟨j, hj⟩).severity "medium" := by
  rcases crossRefLoop_mem_inv (buildUrlKeys citations) (citationDomains citations)
    probe city now items 0 cl h with ⟨j, hj, hcl⟩
  refine ⟨j, hj, ?_, ?_⟩
  · rw [hcl]
    exact (classifyItem_preserves (buildUrlKeys citations) (citationDomains citations)
      probe (normalizeItem city now (0 + j) (items.get ⟨j, hj⟩))).1
  · rw [hcl]
    exact (classifyItem_preserves (buildUrlKeys citations) (citationDomains citations)
      probe (normalizeItem city now (0 + j) (items.get ⟨j, hj⟩))).2

/-- C7 witness: the defaulting at a concrete input (candidate with empty
category and severity, rejected as NoURL). -/
theorem emitted_claim_category_severity_defaulted_witness :
    ∃ (j : Nat) (hj : j < ([⟨"", "", "", "", "", "", "", ""⟩] : List RawItem).length),
      (⟨"l0_0", "", "", "Unknown", "", "Recent", "other", "medium", "X", false,
        "REJECTED — No valid URL"⟩ : Claim).category =
        jsOr (([⟨"", "", "", "", "", "", "", ""⟩] : List RawItem).get ⟨j, hj⟩).category "other" ∧
      (⟨"l0_0", "", "", "Unknown", "", "Recent", "other", "medium", "X", false,
        "REJECTED — No valid URL"⟩ : Claim).severity =
        jsOr (([⟨"", "", "", "", "", "", "", ""⟩] : List RawItem).get ⟨j, hj⟩).severity "medium" :=
  emitted_claim_category_severity_defaulted [] [⟨"", "", "", "", "", "", "", ""⟩]
    (fun _ => false) "X" 0
    ⟨"l0_0", "", "", "Unknown", "", "Recent", "other", "medium", "X", false,
      "REJECTED — No valid URL"⟩
    (Or.inr (by decide))

/-- C10: when some extracted citation has an unparsable url, the sentinel
domain `Unknown` enters the citation source-domain set, so a candidate whose
url passes the scheme check but is itself unparsable (and matches no
citation URL) is classified through the known-domain path: when its probe
fails it receives the `REJECTED — URL does not respond` (RejectedDead) label,
not the fabricated one. -/
theorem unknown_sentinel_rejected_dead (content : List ContentBlock)
    (probe : String → Bool) (city : String) (now i : Nat) (it : RawItem)
    (c : Citation) (hc : c ∈ extractCitations content)
    (hcu : parseUrl c.url = none)
    (hu1 : it.url ≠ "") (hu2 : jsStartsWith it.url "http" = true)
    (hu3 : parseUrl it.url = none)
    (hk1 : urlKey it.url ∉ buildUrlKeys (extractCitations content))
    (hk2 : it.url ∉ buildUrlKeys (extractCitations content))
    (hprobe : probe it.url = false) :
    ("Unknown" ∈ citationDomains (extractCitations content)) ∧
    classifyItem (buildUrlKeys (extractCitations content))
        (citationDomains (extractCitations content)) probe
        (normalizeItem city now i it) =
      { claim := { normalizeItem city now i it with
          verificationNote := "REJECTED — URL does not respond" }
      , accepted := false, probes := 1 } := by
  have hdom : ("Unknown" : String) ∈ citationDomains (extractCitations content) := by
    have hs := extractCitations_source content c hc
    have hunk : c.source = "Unknown" := by
      rw [hs]
      unfold extractDomain
      rw [hcu]
    exact hunk ▸ List.mem_map_of_mem (fun c => c.source) hc
  have hext : extractDomain it.url = "Unknown" := by
    unfold extractDomain
    rw [hu3]
  refine ⟨hdom, ?_⟩
  unfold classifyItem
  rw [if_neg (by simp [normalizeItem_url, hu1, hu2]),
    if_neg (by simp [normalizeItem_url, List.contains, List.elem_eq_mem, hk1, hk2]),
    if_pos (by simp [normalizeItem_url, hext, List.contains, List.elem_eq_mem, hdom]),
    if_neg (by rw [normalizeItem_url, hprobe]; exact Bool.false_ne_true)]

/-- C10 witness: a citation with empty (unparsable) url and a candidate url
`http://` (scheme marker present, unparsable), failing probe. -/
theorem unknown_sentinel_rejected_dead_witness :
    ("Unknown" ∈ citationDomains (extractCitations
        [.webSearchToolResult [.webSearchResult ⟨"T", "", "", "", ""⟩]])) ∧
    classifyItem
        (buildUrlKeys (extractCitations
          [.webSearchToolResult [.webSearchResult ⟨"T", "", "", "", ""⟩]]))
        (citationDomains (extractCitations
          [.webSearchToolResult [.webSearchResult ⟨"T", "", "", "", ""⟩]]))
        (fun _ => false)
        (normalizeItem "X" 0 0 ⟨"A", "", "", "http://", "", "", "", ""⟩) =
      { claim := { normalizeItem "X" 0 0 ⟨"A", "", "", "http://", "", "", "", ""⟩ with
          verificationNote := "REJECTED — URL does not respond" }
      , accepted := false, probes := 1 } :=
  unknown_sentinel_rejected_dead
    [.webSearchToolResult [.webSearchResult ⟨"T", "", "", "", ""⟩]]
    (fun _ => false) "X" 0 0 ⟨"A", "", "", "http://", "", "", "", ""⟩
    ⟨"T", "", "", "Unknown", ""⟩ (by decide) (by decide) (by decide) (by decide)
    (by decide) (by decide) (by decide) rfl

end CivicSentinel

